import Mathlib

/-!
Verification of the currency-updater program (`src/main.py`).

The file shallowly embeds the rate-resolution engine (`CurrencyParser`),
the currency-field extractor (`NotionUpdater.extract_currency_code`) and
the batch loop (`NotionUpdater.process_database`) as pure Lean functions.

Modelling conventions:
* `time.time()` values are rationals (Unix seconds).  Python floats that
  appear as rates are also modelled as rationals; the inputs we reason
  about are exactly representable, so no float rounding is lost.
* Python dictionaries whose keys are known strings are modelled as
  association lists (`List (String × _)`), looked up with `dict_get`;
  the dictionaries built by the program have pairwise distinct keys.
* Network effects are modelled by passing the ambient world into each
  call: a `BankResponse` describes what the Belarusbank endpoint would
  answer if it were contacted at that moment, and each lookup result
  reports how many HTTP requests to that endpoint were actually issued.
* Exceptions that the Python code catches are modelled by the explicit
  alternative the handler selects; the embedded functions are total.
-/

/-- Python `str.upper()`, character by character (the currency codes and
labels this program handles are ASCII, where `Char.toUpper` agrees with
Python's case mapping). -/
def py_upper (s : String) : String := ⟨s.data.map Char.toUpper⟩

/-- Python `str.strip()`: remove leading and trailing whitespace. -/
def py_strip (s : String) : String :=
  ⟨((s.data.dropWhile Char.isWhitespace).reverse.dropWhile Char.isWhitespace).reverse⟩

/-- Lookup in an association list, modelling Python dict access and the
`in` membership test.  All dictionaries this program builds have pairwise
distinct keys, so first-match lookup is exact dict semantics. -/
def dict_get {κ α : Type} [DecidableEq κ] (k : κ) : List (κ × α) → Option α
  | [] => none
  | p :: rest => if p.1 = k then some p.2 else dict_get k rest

/-- `CURRENCY_CODE_MAPPING` from `src/main.py`: numeric NBRB codes stored in
the Notion field `ID_money`, mapped to 3-letter currency codes. -/
def CURRENCY_CODE_MAPPING : List (Int × String) :=
  [(145, "USD"), (292, "EUR"), (298, "RUB"), (1, "BYN"), (293, "GBP"), (304, "CNY")]

/-- The static fallback table `fixed_rates` declared inside
`CurrencyParser.get_exchange_rate` (lines 82-88 of `src/main.py`). -/
def fixed_rates : List (String × ℚ) :=
  [("USD", 29/10), ("EUR", 32/10), ("RUB", 34/1000), ("GBP", 4), ("CNY", 43/100)]

/-- `bank_field_mapping` from `CurrencyParser._refresh_belarusbank_cache`:
our currency codes paired with the field name of the bank's JSON answer. -/
def bank_field_mapping : List (String × String) :=
  [("USD", "USD_in"), ("EUR", "EUR_in"), ("RUB", "RUB_in"), ("GBP", "GBP_in"),
   ("CNY", "CNY_in"), ("PLN", "PLN_in"), ("UAH", "UAH_in")]

/-- `self.cache_valid_hours = 1` (line 55 of `src/main.py`). -/
def cache_valid_hours : ℚ := 1

/-- A JSON field value of the bank response, as the parsing loop of
`_refresh_belarusbank_cache` distinguishes them:
* `falsy`  — present but falsy (`None`, `""`, `0`); skipped by the
  truthiness test `and bank_data[bank_field]`;
* `val q`  — truthy and convertible by `float(...)` to the number `q`;
* `unparseable` — truthy but `float(...)` raises `ValueError`/`TypeError`,
  which the per-field handler catches and skips. -/
inductive FieldVal where
  | falsy : FieldVal
  | val : ℚ → FieldVal
  | unparseable : FieldVal
deriving DecidableEq

/-- The first element `data[0]` of the bank's JSON array:
* `obj fields` — a JSON object; membership `bank_field in bank_data` is an
  ordinary key test (keys are pairwise distinct);
* `scalar` — a non-container value (number, boolean, null), on which the
  Python membership test raises `TypeError`. -/
inductive BankFirst where
  | obj : List (String × FieldVal) → BankFirst
  | scalar : BankFirst
deriving DecidableEq

/-- What the Belarusbank endpoint would answer if contacted:
* `netError` — `requests.get` raises (timeout, connection error, bad HTTP
  status) or `.json()` fails: control jumps to the handlers at the bottom
  of `_refresh_belarusbank_cache` before the cache is touched;
* `notList` — the decoded body is falsy (e.g. `[]`, `null`) or not a list:
  the early `return` at line 147 fires before the cache is touched;
* `ok first` — the body is a non-empty list with first element `first`. -/
inductive BankResponse where
  | netError : BankResponse
  | notList : BankResponse
  | ok : BankFirst → BankResponse
deriving DecidableEq

/-- The mutable state of a `CurrencyParser`: `self.rates_cache` (a dict,
initially `{}`) and `self.cache_timestamp` (initially `None`, set to
`time.time()` by a refresh that reaches line 176). -/
structure CacheState where
  rates_cache : List (String × ℚ)
  cache_timestamp : Option ℚ
deriving DecidableEq

/-- `CurrencyParser._should_refresh_cache`.  Note the Python truthiness
test `if not self.cache_timestamp`: it fires both when the timestamp is
`None` and when it is the (unrealistic) float `0.0`. -/
def should_refresh_cache (st : CacheState) (now : ℚ) : Bool :=
  match st.cache_timestamp with
  | none => true
  | some t => decide (t = 0) || decide (now - t > cache_valid_hours * 3600)

/-- The field-parsing loop of `_refresh_belarusbank_cache` (lines 167-174):
walk `bank_field_mapping` in order and keep every field that is present,
truthy and float-convertible.  The result is the new `rates_cache`. -/
def parseBankData (fields : List (String × FieldVal)) : List (String × ℚ) :=
  bank_field_mapping.foldl
    (fun acc pair =>
      match dict_get pair.2 fields with
      | some (FieldVal.val q) => acc ++ [(pair.1, q)]
      | _ => acc)
    []

/-- `CurrencyParser._refresh_belarusbank_cache`, called at time `now` with
the ambient bank answer `resp`.  Mirrors the Python control flow:
* any request/decode failure or a non-list/falsy body returns before the
  cache is touched;
* a non-empty list first clears `self.rates_cache` (line 150), then reads
  `data[0]`; if that element is a non-container, the membership test
  raises `TypeError`, the outer handler catches it, and the function
  returns with the cache already cleared and the old timestamp kept;
* an object first element yields the parsed mapping and a new timestamp. -/
def refresh_belarusbank_cache (st : CacheState) (resp : BankResponse) (now : ℚ) :
    CacheState :=
  match resp with
  | BankResponse.netError => st
  | BankResponse.notList => st
  | BankResponse.ok BankFirst.scalar => ⟨[], st.cache_timestamp⟩
  | BankResponse.ok (BankFirst.obj fields) => ⟨parseBankData fields, some now⟩

/-- Result of one rate lookup: the returned value, the parser state after
the call, and how many HTTP requests to the bank endpoint were issued. -/
structure LookupResult where
  rate : Option ℚ
  state : CacheState
  requests : Nat
deriving DecidableEq

/-- `CurrencyParser._get_belarusbank_rate`: refresh the cache if stale
(issuing exactly one HTTP request), then look the code up in the cache. -/
def get_belarusbank_rate (st : CacheState) (resp : BankResponse) (now : ℚ)
    (code : String) : LookupResult :=
  if should_refresh_cache st now then
    let st' := refresh_belarusbank_cache st resp now
    ⟨dict_get code st'.rates_cache, st', 1⟩
  else
    ⟨dict_get code st.rates_cache, st, 0⟩

/-- `CurrencyParser.get_exchange_rate`: uppercase the code, short-circuit
BYN to 1.0, otherwise try the cache-backed bank source and fall back to
the static `fixed_rates` table; `None` when every source fails. -/
def get_exchange_rate (st : CacheState) (resp : BankResponse) (now : ℚ)
    (code : String) : LookupResult :=
  let c := py_upper code
  if c = "BYN" then ⟨some 1, st, 0⟩
  else
    let r := get_belarusbank_rate st resp now c
    match r.rate with
    | some q => ⟨some q, r.state, r.requests⟩
    | none =>
      match dict_get c fixed_rates with
      | some q => ⟨some q, r.state, r.requests⟩
      | none => ⟨none, r.state, r.requests⟩

/-- Python `int(x)` on a rational: truncation toward zero. -/
def py_int (q : ℚ) : Int :=
  if 0 ≤ q then ⌊q⌋ else -⌊-q⌋

/-- The whitelist the `select` and `rich_text` branches of
`NotionUpdater.extract_currency_code` test membership against
(lines 260 and 267 of `src/main.py`). -/
def TEXT_CODE_WHITELIST : List String :=
  ["USD", "EUR", "RUB", "BYN", "GBP", "CNY"]

/-- The `ID_money` property of a Notion page, as the branches of
`NotionUpdater.extract_currency_code` distinguish it:
* `absent` — the property is missing or falsy;
* `number v` — `type` is `"number"`; `v` is the `number` value (`none`
  when it is `null`/missing);
* `select name` — `type` is `"select"`; `name` is `none` when the
  `select` object itself is falsy (no option chosen), otherwise the
  option's `name` text (a missing name defaults to `""`);
* `rich_text texts` — `type` is `"rich_text"`; `texts` lists the
  `plain_text` of each run (missing `plain_text` defaults to `""`);
* `other` — any other `type` string. -/
inductive IdMoneyField where
  | absent : IdMoneyField
  | number : Option ℚ → IdMoneyField
  | select : Option String → IdMoneyField
  | rich_text : List String → IdMoneyField
  | other : IdMoneyField
deriving DecidableEq

/-- `NotionUpdater.extract_currency_code` (lines 230-275 of `src/main.py`). -/
def extract_currency_code (f : IdMoneyField) : Option String :=
  match f with
  | IdMoneyField.absent => none
  | IdMoneyField.number none => none
  | IdMoneyField.number (some v) => dict_get (py_int v) CURRENCY_CODE_MAPPING
  | IdMoneyField.select none => none
  | IdMoneyField.select (some s) =>
      let c := py_upper (py_strip s)
      if c ∈ TEXT_CODE_WHITELIST then some c else none
  | IdMoneyField.rich_text [] => none
  | IdMoneyField.rich_text (t :: _) =>
      let c := py_upper (py_strip t)
      if c ∈ TEXT_CODE_WHITELIST then some c else none
  | IdMoneyField.other => none

/-- One page of the Notion database, together with the ambient world at
the moment the batch loop processes it:
* `missing_id` — `page["id"]` raises `KeyError` (caught by the per-page
  handler and counted as an error);
* `field` — the `ID_money` property;
* `time` — the value `time.time()` would return during this iteration;
* `resp` — what the bank endpoint would answer if contacted now;
* `update_ok` — whether `update_page_rate` (an external PATCH request)
  would succeed for this page. -/
structure PageEnv where
  missing_id : Bool
  field : IdMoneyField
  time : ℚ
  resp : BankResponse
  update_ok : Bool
deriving DecidableEq

/-- The counters of `NotionUpdater.process_database`, plus two observers:
`requests` counts HTTP requests to the bank endpoint and `rate_lookups`
counts invocations of `CurrencyParser.get_exchange_rate`. -/
structure RunStats where
  updated : Nat
  skipped : Nat
  errors : Nat
  requests : Nat
  rate_lookups : Nat
deriving DecidableEq

/-- The all-zero counters the batch loop starts from. -/
def initStats : RunStats := ⟨0, 0, 0, 0, 0⟩

/-- The body of the `for page in pages` loop of
`NotionUpdater.process_database` (lines 317-350 of `src/main.py`). -/
def process_page (st : CacheState) (acc : RunStats) (p : PageEnv) :
    CacheState × RunStats :=
  if p.missing_id then (st, { acc with errors := acc.errors + 1 })
  else
    match extract_currency_code p.field with
    | none => (st, { acc with skipped := acc.skipped + 1 })
    | some code =>
      let r := get_exchange_rate st p.resp p.time code
      let acc' := { acc with
        requests := acc.requests + r.requests,
        rate_lookups := acc.rate_lookups + 1 }
      match r.rate with
      | none => (r.state, { acc' with errors := acc'.errors + 1 })
      | some _ =>
        if p.update_ok then (r.state, { acc' with updated := acc'.updated + 1 })
        else (r.state, { acc' with errors := acc'.errors + 1 })

/-- The whole `for` loop, threading the parser state and counters. -/
def process_pages (st : CacheState) (acc : RunStats) :
    List PageEnv → CacheState × RunStats
  | [] => (st, acc)
  | p :: rest =>
    process_pages (process_page st acc p).1 (process_page st acc p).2 rest

/-- `NotionUpdater.process_database`, applied to the already-fetched page
list (fetching is an external collaborator).  The first component is the
Python return value: `None` from the early `return` when the page list is
empty or falsy, otherwise `updated_count`.  The second and third
components expose the final parser state and counters for reasoning. -/
def process_database (st : CacheState) (pages : List PageEnv) :
    Option Nat × CacheState × RunStats :=
  if pages.isEmpty then (none, st, initStats)
  else
    (some (process_pages st initStats pages).2.updated,
     (process_pages st initStats pages).1,
     (process_pages st initStats pages).2)

/-- The distinct currency codes extracted across a page list (what §4.4
of the spec calls the deduplicated set of required currencies). -/
def distinct_codes (pages : List PageEnv) : List String :=
  (pages.filterMap (fun p => extract_currency_code p.field)).dedup

example :
    get_exchange_rate ⟨[], none⟩ (BankResponse.ok (BankFirst.obj
      [("USD_in", FieldVal.val (32/10))])) 100 "usd" =
    ⟨some (32/10), ⟨[("USD", 32/10)], some 100⟩, 1⟩ := by
  norm_num +decide [get_exchange_rate, get_belarusbank_rate, should_refresh_cache,
    refresh_belarusbank_cache, parseBankData, bank_field_mapping, py_upper,
    fixed_rates, dict_get]

example :
    get_exchange_rate ⟨[], none⟩ BankResponse.netError 100 "USD" =
    ⟨some (29/10), ⟨[], none⟩, 1⟩ := by
  norm_num +decide [get_exchange_rate, get_belarusbank_rate, should_refresh_cache,
    refresh_belarusbank_cache, py_upper, fixed_rates, dict_get]

example : get_exchange_rate ⟨[], some 50⟩ BankResponse.netError 100 "ZZZ" =
    ⟨none, ⟨[], some 50⟩, 0⟩ := by
  norm_num +decide [get_exchange_rate, get_belarusbank_rate, should_refresh_cache,
    cache_valid_hours, py_upper, fixed_rates, dict_get]

example : extract_currency_code (IdMoneyField.number (some 145)) = some "USD" := by
  norm_num +decide [extract_currency_code, py_int, CURRENCY_CODE_MAPPING, dict_get]

example : extract_currency_code (IdMoneyField.select (some " usd ")) = some "USD" := by
  decide

example : extract_currency_code (IdMoneyField.select (some "PLN")) = none := by
  decide

example :
    process_database ⟨[], none⟩
      [⟨false, IdMoneyField.number (some 145), 100, BankResponse.netError, true⟩,
       ⟨false, IdMoneyField.number (some 145), 101, BankResponse.netError, true⟩] =
    (some 2, ⟨[], none⟩, ⟨2, 0, 0, 2, 2⟩) := by
  norm_num +decide [process_database, process_pages, process_page, initStats,
    extract_currency_code, py_int, CURRENCY_CODE_MAPPING, dict_get,
    get_exchange_rate, get_belarusbank_rate, should_refresh_cache,
    refresh_belarusbank_cache, py_upper, fixed_rates]

/-! ## Helper lemmas about cache freshness and single lookups -/

/-- With a nonzero stored timestamp, `_should_refresh_cache` is exactly
the TTL comparison. -/
lemma should_refresh_some (st : CacheState) (t0 now : ℚ)
    (hts : st.cache_timestamp = some t0) (ht0 : t0 ≠ 0) :
    should_refresh_cache st now = decide (now - t0 > cache_valid_hours * 3600) := by
  simp [should_refresh_cache, hts, ht0]

/-- Inside the TTL window of a genuine (positive) timestamp, no refresh
is triggered. -/
lemma should_refresh_in_window (st : CacheState) (t0 now : ℚ)
    (hts : st.cache_timestamp = some t0) (ht0 : 0 < t0) (h : now - t0 ≤ 3600) :
    should_refresh_cache st now = false := by
  rw [should_refresh_some st t0 now hts (ne_of_gt ht0)]
  simp [cache_valid_hours]
  linarith

/-- Past the TTL window, a refresh is triggered. -/
lemma should_refresh_past_window (st : CacheState) (t0 now : ℚ)
    (hts : st.cache_timestamp = some t0) (ht0 : 0 < t0) (h : now - t0 > 3600) :
    should_refresh_cache st now = true := by
  rw [should_refresh_some st t0 now hts (ne_of_gt ht0)]
  simp [cache_valid_hours]
  linarith

/-- When no refresh is due, `get_exchange_rate` leaves the parser state
unchanged and issues no HTTP request. -/
lemma get_exchange_rate_fresh (st : CacheState) (resp : BankResponse)
    (now : ℚ) (code : String) (h : should_refresh_cache st now = false) :
    (get_exchange_rate st resp now code).state = st ∧
    (get_exchange_rate st resp now code).requests = 0 := by
  by_cases hb : py_upper code = "BYN"
  · simp [get_exchange_rate, hb]
  · simp only [get_exchange_rate, get_belarusbank_rate, h, if_neg hb,
      Bool.false_eq_true, if_false]
    cases hr : dict_get (py_upper code) st.rates_cache <;>
      simp only [hr] <;>
      cases hf : dict_get (py_upper code) fixed_rates <;> simp [hf]

/-- When a refresh is due and the code is not BYN, `get_exchange_rate`
issues exactly one HTTP request, and the state after the call is the
refreshed state. -/
lemma get_exchange_rate_stale (st : CacheState) (resp : BankResponse)
    (now : ℚ) (code : String) (h : should_refresh_cache st now = true)
    (hb : py_upper code ≠ "BYN") :
    (get_exchange_rate st resp now code).state =
      refresh_belarusbank_cache st resp now ∧
    (get_exchange_rate st resp now code).requests = 1 := by
  simp only [get_exchange_rate, get_belarusbank_rate, h, if_neg hb, if_true]
  cases hr : dict_get (py_upper code) (refresh_belarusbank_cache st resp now).rates_cache <;>
    simp only [hr] <;>
    cases hf : dict_get (py_upper code) fixed_rates <;> simp [hf]

/-! ## Claim theorems -/

/-- C5. Local-currency short-circuit: for every parser state, ambient
bank answer, time, and input code that normalizes (uppercases) to the
local currency `BYN`, `get_exchange_rate` returns exactly 1.0, issues no
network request, and leaves the cache state untouched. -/
theorem byn_short_circuit_C5 (st : CacheState) (resp : BankResponse)
    (now : ℚ) (code : String) (h : py_upper code = "BYN") :
    get_exchange_rate st resp now code = ⟨some 1, st, 0⟩ := by
  simp [get_exchange_rate, h]

theorem byn_short_circuit_C5_witness :
    get_exchange_rate ⟨[("USD", 2)], some 5⟩ BankResponse.netError 10 "byn" =
      ⟨some 1, ⟨[("USD", 2)], some 5⟩, 0⟩ :=
  byn_short_circuit_C5 ⟨[("USD", 2)], some 5⟩ BankResponse.netError 10 "byn"
    (by decide)

/-- C7. `get_exchange_rate` returns `None` exactly when the normalized
code is not the local currency, the cache-backed Belarusbank source
yields no rate for it, and the static `fixed_rates` table has no entry
for it.  (The embedded function is total, mirroring the fact that the
Python function catches every exception and always returns a value.) -/
theorem unresolved_iff_C7 (st : CacheState) (resp : BankResponse)
    (now : ℚ) (code : String) :
    (get_exchange_rate st resp now code).rate = none ↔
      py_upper code ≠ "BYN" ∧
      (get_belarusbank_rate st resp now (py_upper code)).rate = none ∧
      dict_get (py_upper code) fixed_rates = none := by
  by_cases hb : py_upper code = "BYN"
  · simp [get_exchange_rate, hb]
  · simp only [get_exchange_rate, if_neg hb]
    cases hr : (get_belarusbank_rate st resp now (py_upper code)).rate <;>
      simp only [hr] <;>
      cases hf : dict_get (py_upper code) fixed_rates <;> simp [hf, hb]

/-- C8 counterexample: the select label `"PLN"` consists of exactly 3
alphabetic characters and is already stripped and uppercased, yet
`extract_currency_code` returns `None` for it rather than `"PLN"`,
because the select branch tests membership in a fixed whitelist. -/
theorem select_whitelist_C8_counterexample :
    extract_currency_code (IdMoneyField.select (some "PLN")) = none ∧
    py_upper (py_strip "PLN") = "PLN" ∧
    "PLN".data.length = 3 ∧ "PLN".data.all Char.isAlpha = true := by
  refine ⟨by decide, by decide, by decide, by decide⟩

/-- C8 as amended: a select label is accepted exactly when its stripped,
uppercased text is one of the six whitelisted codes
USD/EUR/RUB/BYN/GBP/CNY, and then that text is returned; every other
label — including other 3-letter alphabetic codes — yields `None`. -/
theorem select_whitelist_C8_amended (s c : String) :
    extract_currency_code (IdMoneyField.select (some s)) = some c ↔
      c = py_upper (py_strip s) ∧ c ∈ TEXT_CODE_WHITELIST := by
  simp only [extract_currency_code]
  by_cases h : py_upper (py_strip s) ∈ TEXT_CODE_WHITELIST
  · simp only [if_pos h, Option.some.injEq]
    constructor
    · intro hc
      exact ⟨hc.symm, hc ▸ h⟩
    · intro hc
      exact hc.1.symm
  · simp only [if_neg h]
    constructor
    · intro hc
      exact absurd hc (by simp)
    · intro hc
      exact absurd (hc.1 ▸ hc.2) h

/-- C4 (the code at the failing input): with a non-empty cache fetched
at time 1000, a refresh at time 2000 whose HTTP request succeeds but
whose JSON body is a non-empty list with a non-object first element
(e.g. `[5]`) CLEARS the cached mapping while keeping the old timestamp:
the state after the call is neither the old state nor a fresh one, so
the old contents are not preserved on this failure. -/
theorem stale_cache_clear_C4 :
    refresh_belarusbank_cache ⟨[("USD", 5/2)], some 1000⟩
        (BankResponse.ok BankFirst.scalar) 2000 =
      ⟨[], some 1000⟩ ∧
    ([] : List (String × ℚ)) ≠ [("USD", 5/2)] := by
  exact ⟨rfl, by simp⟩

/-- C6 counterexample: a Belarusbank `USD_in` value of `3.14159` is
stored in the cache and returned to the caller exactly as `3.14159`, not
rounded to `3.1416`: no path of the resolution chain rounds to 4 decimal
places. -/
theorem no_rounding_C6_counterexample :
    get_exchange_rate ⟨[], none⟩ (BankResponse.ok (BankFirst.obj
        [("USD_in", FieldVal.val (314159/100000))])) 100 "USD" =
      ⟨some (314159/100000), ⟨[("USD", 314159/100000)], some 100⟩, 1⟩ ∧
    (314159/100000 : ℚ) ≠ 31416/10000 := by
  constructor
  · norm_num +decide [get_exchange_rate, get_belarusbank_rate,
      should_refresh_cache, refresh_belarusbank_cache, parseBankData,
      bank_field_mapping, dict_get, py_upper]
  · norm_num

/-- C6 as amended: every rate parsed from the provider response is
stored in the cache and returned to the caller exactly as parsed — the
code applies no rounding anywhere (and the fixed fallback table is
likewise returned verbatim). -/
theorem no_rounding_C6_amended (st : CacheState) (now : ℚ) (code : String)
    (fields : List (String × FieldVal)) (q : ℚ)
    (h1 : should_refresh_cache st now = true)
    (h2 : py_upper code ≠ "BYN")
    (h3 : dict_get (py_upper code) (parseBankData fields) = some q) :
    (get_exchange_rate st (BankResponse.ok (BankFirst.obj fields)) now code).rate =
      some q ∧
    dict_get (py_upper code)
      (get_exchange_rate st (BankResponse.ok (BankFirst.obj fields)) now code).state.rates_cache =
      some q := by
  simp [get_exchange_rate, get_belarusbank_rate, h1, if_neg h2,
    refresh_belarusbank_cache, h3]

theorem no_rounding_C6_witness :
    (get_exchange_rate ⟨[], none⟩ (BankResponse.ok (BankFirst.obj
        [("USD_in", FieldVal.val (314159/100000))])) 100 "usd").rate =
      some (314159/100000) :=
  (no_rounding_C6_amended ⟨[], none⟩ 100 "usd"
    [("USD_in", FieldVal.val (314159/100000))] (314159/100000)
    rfl (by decide)
    (by norm_num +decide [parseBankData, bank_field_mapping, dict_get])).1

/-- C1. Cache freshness.  For any state whose timestamp records a prior
successful refresh (a positive `time.time()` value):
* a lookup triggers a refresh exactly when the age of the cache exceeds
  the fixed TTL of 3600 seconds (and always when no prior successful
  refresh exists, first conjunct);
* within the TTL window the Belarusbank source answers from the cached
  mapping unchanged, with no network request;
* any two rate lookups within the TTL window issue zero network
  requests in total (hence at most one);
* a non-local-currency lookup after TTL expiry issues exactly one new
  request. -/
theorem cache_freshness_C1 :
    (∀ (st : CacheState) (now : ℚ), st.cache_timestamp = none →
      should_refresh_cache st now = true) ∧
    ∀ (st : CacheState) (t0 : ℚ), st.cache_timestamp = some t0 → 0 < t0 →
      (∀ now : ℚ, should_refresh_cache st now = true ↔ now - t0 > 3600) ∧
      (∀ (now : ℚ) (resp : BankResponse) (c : String), now - t0 ≤ 3600 →
        get_belarusbank_rate st resp now c = ⟨dict_get c st.rates_cache, st, 0⟩) ∧
      (∀ (t1 t2 : ℚ) (r1 r2 : BankResponse) (c1 c2 : String),
        t1 - t0 ≤ 3600 → t2 - t0 ≤ 3600 →
        (get_exchange_rate st r1 t1 c1).requests = 0 ∧
        (get_exchange_rate (get_exchange_rate st r1 t1 c1).state r2 t2 c2).requests = 0) ∧
      (∀ (now : ℚ) (resp : BankResponse) (c : String), now - t0 > 3600 →
        py_upper c ≠ "BYN" →
        (get_exchange_rate st resp now c).requests = 1) := by
  constructor
  · intro st now h
    simp [should_refresh_cache, h]
  intro st t0 hts ht0
  refine ⟨?_, ?_, ?_, ?_⟩
  · intro now
    rw [should_refresh_some st t0 now hts (ne_of_gt ht0)]
    simp [cache_valid_hours]
  · intro now resp c h
    simp [get_belarusbank_rate, should_refresh_in_window st t0 now hts ht0 h]
  · intro t1 t2 r1 r2 c1 c2 h1 h2
    have hf1 := should_refresh_in_window st t0 t1 hts ht0 h1
    obtain ⟨hs1, hr1⟩ := get_exchange_rate_fresh st r1 t1 c1 hf1
    have hf2 : should_refresh_cache (get_exchange_rate st r1 t1 c1).state t2 = false := by
      rw [hs1]
      exact should_refresh_in_window st t0 t2 hts ht0 h2
    exact ⟨hr1, (get_exchange_rate_fresh _ r2 t2 c2 hf2).2⟩
  · intro now resp c h hb
    exact (get_exchange_rate_stale st resp now c
      (should_refresh_past_window st t0 now hts ht0 h) hb).2

theorem cache_freshness_C1_witness :
    should_refresh_cache ⟨[("USD", 3)], some 1000⟩ 5000 = true ∧
    get_belarusbank_rate ⟨[("USD", 3)], some 1000⟩ BankResponse.netError 2000 "USD" =
      ⟨some 3, ⟨[("USD", 3)], some 1000⟩, 0⟩ ∧
    (get_exchange_rate ⟨[("USD", 3)], some 1000⟩ BankResponse.netError 2000 "USD").requests = 0 ∧
    (get_exchange_rate ⟨[("USD", 3)], some 1000⟩ BankResponse.netError 5000 "EUR").requests = 1 := by
  have h := (cache_freshness_C1).2 ⟨[("USD", 3)], some 1000⟩ 1000 rfl (by norm_num)
  refine ⟨(h.1 5000).mpr (by norm_num), ?_, ?_, ?_⟩
  · have := h.2.1 2000 BankResponse.netError "USD" (by norm_num)
    simpa [dict_get] using this
  · exact (h.2.2.1 2000 2000 BankResponse.netError BankResponse.netError
      "USD" "USD" (by norm_num) (by norm_num)).1
  · exact h.2.2.2 5000 BankResponse.netError "EUR" (by norm_num) (by decide)

/-- C10. Degenerate successful refresh: when a due refresh receives a
well-formed non-empty list whose first element parses to no recognized
rate field, the cache is replaced by the empty mapping with a fresh
timestamp, the triggering lookup falls through to the static
`fixed_rates` table, and every subsequent lookup within the next TTL
window finds no cached rate, answers from `fixed_rates` (or the BYN
short-circuit), and issues no new provider request. -/
theorem degenerate_refresh_C10 (st : CacheState) (t0 : ℚ)
    (fields : List (String × FieldVal)) (c : String)
    (h1 : should_refresh_cache st t0 = true) (h2 : 0 < t0)
    (h3 : parseBankData fields = []) (h4 : py_upper c ≠ "BYN") :
    get_exchange_rate st (BankResponse.ok (BankFirst.obj fields)) t0 c =
      ⟨dict_get (py_upper c) fixed_rates, ⟨[], some t0⟩, 1⟩ ∧
    ∀ (t : ℚ) (resp : BankResponse) (c2 : String), t - t0 ≤ 3600 →
      get_exchange_rate ⟨[], some t0⟩ resp t c2 =
        ⟨if py_upper c2 = "BYN" then some 1
         else dict_get (py_upper c2) fixed_rates, ⟨[], some t0⟩, 0⟩ := by
  constructor
  · simp only [get_exchange_rate, get_belarusbank_rate, h1, if_true,
      refresh_belarusbank_cache, h3, if_neg h4]
    cases hf : dict_get (py_upper c) ([] : List (String × ℚ)) <;>
      cases hg : dict_get (py_upper c) fixed_rates <;>
      simp_all [dict_get]
  · intro t resp c2 hw
    have hfresh : should_refresh_cache ⟨[], some t0⟩ t = false :=
      should_refresh_in_window ⟨[], some t0⟩ t0 t rfl h2 hw
    by_cases hb : py_upper c2 = "BYN"
    · simp [get_exchange_rate, hb]
    · simp only [get_exchange_rate, get_belarusbank_rate, hfresh, if_neg hb,
        Bool.false_eq_true, if_false]
      cases hf : dict_get (py_upper c2) fixed_rates <;> simp [hf, hb, dict_get]

theorem degenerate_refresh_C10_witness :
    get_exchange_rate ⟨[("USD", 3)], some 1000⟩ (BankResponse.ok (BankFirst.obj
        [("USD_in", FieldVal.falsy)])) 10000 "USD" =
      ⟨some (29/10), ⟨[], some 10000⟩, 1⟩ ∧
    get_exchange_rate ⟨[], some 10000⟩ BankResponse.netError 10100 "EUR" =
      ⟨some (32/10), ⟨[], some 10000⟩, 0⟩ := by
  have h := degenerate_refresh_C10 ⟨[("USD", 3)], some 1000⟩ 10000
    [("USD_in", FieldVal.falsy)] "USD"
    (by norm_num [should_refresh_cache, cache_valid_hours])
    (by norm_num)
    (by norm_num +decide [parseBankData, bank_field_mapping, dict_get])
    (by decide)
  constructor
  · have := h.1
    simpa [dict_get] using this
  · have := h.2 10100 BankResponse.netError "EUR" (by norm_num)
    simpa [dict_get] using this

/-! ## Helper lemmas about the batch loop -/

/-- When the cache is fresh at the moment a page is processed, the loop
body leaves the parser state unchanged and issues no network request. -/
lemma process_page_fresh (st : CacheState) (acc : RunStats) (p : PageEnv)
    (h : should_refresh_cache st p.time = false) :
    (process_page st acc p).1 = st ∧
    (process_page st acc p).2.requests = acc.requests := by
  unfold process_page
  by_cases hid : p.missing_id
  · simp [hid]
  · simp only [hid, Bool.false_eq_true, if_false]
    cases hx : extract_currency_code p.field
    · simp
    · next code =>
        obtain ⟨hs, hr⟩ := get_exchange_rate_fresh st p.resp p.time code h
        cases hv : (get_exchange_rate st p.resp p.time code).rate <;>
          by_cases hu : p.update_ok <;> simp [hv, hu, hs, hr]

/-- Running the whole loop from a state inside the TTL window of a
genuine timestamp keeps the state unchanged and issues no requests. -/
lemma process_pages_fresh (t0 : ℚ) (ht0 : 0 < t0) :
    ∀ (pages : List PageEnv) (st : CacheState) (acc : RunStats),
      st.cache_timestamp = some t0 → (∀ p ∈ pages, p.time - t0 ≤ 3600) →
      (process_pages st acc pages).1 = st ∧
      (process_pages st acc pages).2.requests = acc.requests := by
  intro pages
  induction pages with
  | nil => intro st acc _ _; simp [process_pages]
  | cons p rest ih =>
    intro st acc hts hw
    have hfresh : should_refresh_cache st p.time = false :=
      should_refresh_in_window st t0 p.time hts ht0 (hw p (List.mem_cons_self p rest))
    obtain ⟨hs, hr⟩ := process_page_fresh st acc p hfresh
    simp only [process_pages]
    have hts2 : (process_page st acc p).1.cache_timestamp = some t0 := by
      rw [hs]; exact hts
    obtain ⟨hs2, hr2⟩ := ih (process_page st acc p).1 (process_page st acc p).2
      hts2 (fun q hq => hw q (List.mem_cons_of_mem p hq))
    exact ⟨by rw [hs2, hs], by rw [hr2, hr]⟩

/-- Each loop iteration performs exactly one `get_exchange_rate` call
when the page has an id and a resolvable code, and none otherwise. -/
lemma process_page_rate_lookups (st : CacheState) (acc : RunStats) (p : PageEnv) :
    (process_page st acc p).2.rate_lookups =
      acc.rate_lookups +
        (if !p.missing_id && (extract_currency_code p.field).isSome then 1 else 0) := by
  unfold process_page
  by_cases hid : p.missing_id
  · simp [hid]
  · simp only [hid, Bool.false_eq_true, if_false, Bool.not_false, Bool.true_and]
    cases hx : extract_currency_code p.field
    · simp
    · next code =>
        cases hv : (get_exchange_rate st p.resp p.time code).rate <;>
          by_cases hu : p.update_ok <;> simp [hv, hu]

/-- Each loop iteration increments exactly one of the three counters. -/
lemma process_page_total (st : CacheState) (acc : RunStats) (p : PageEnv) :
    (process_page st acc p).2.updated + (process_page st acc p).2.skipped +
      (process_page st acc p).2.errors =
    acc.updated + acc.skipped + acc.errors + 1 := by
  unfold process_page
  by_cases hid : p.missing_id
  · simp [hid]; omega
  · simp only [hid, Bool.false_eq_true, if_false]
    cases hx : extract_currency_code p.field
    · simp; omega
    · next code =>
        cases hv : (get_exchange_rate st p.resp p.time code).rate <;>
          by_cases hu : p.update_ok <;> simp [hv, hu] <;> omega

/-- The loop's `get_exchange_rate` call count over a page list. -/
lemma process_pages_rate_lookups :
    ∀ (pages : List PageEnv) (st : CacheState) (acc : RunStats),
      (process_pages st acc pages).2.rate_lookups =
        acc.rate_lookups +
          (pages.filter
            (fun p => !p.missing_id && (extract_currency_code p.field).isSome)).length := by
  intro pages
  induction pages with
  | nil => intro st acc; simp [process_pages]
  | cons p rest ih =>
    intro st acc
    simp only [process_pages]
    rw [ih (process_page st acc p).1 (process_page st acc p).2]
    rw [process_page_rate_lookups st acc p]
    by_cases hp : (!p.missing_id && (extract_currency_code p.field).isSome) = true
    all_goals simp [List.filter_cons, hp]
    all_goals omega

/-- The three counters sum to the number of pages processed. -/
lemma process_pages_total :
    ∀ (pages : List PageEnv) (st : CacheState) (acc : RunStats),
      (process_pages st acc pages).2.updated + (process_pages st acc pages).2.skipped +
        (process_pages st acc pages).2.errors =
      acc.updated + acc.skipped + acc.errors + pages.length := by
  intro pages
  induction pages with
  | nil => intro st acc; simp [process_pages]
  | cons p rest ih =>
    intro st acc
    simp only [process_pages]
    rw [ih (process_page st acc p).1 (process_page st acc p).2]
    rw [process_page_total st acc p]
    simp
    omega

/-- C2 counterexample: starting from the empty (not-fresh) cache, with
the provider failing, one batch run over 1 record referencing only USD
issues 1 provider query, but a run over 2 such records (the same
distinct-code set, K = 1) issues 2 queries: the query count is NOT
independent of the number of records N. -/
theorem batching_C2_counterexample :
    (process_database ⟨[], none⟩
        [⟨false, IdMoneyField.number (some 145), 100, BankResponse.netError, true⟩]).2.2.requests = 1 ∧
    (process_database ⟨[], none⟩
        [⟨false, IdMoneyField.number (some 145), 100, BankResponse.netError, true⟩,
         ⟨false, IdMoneyField.number (some 145), 101, BankResponse.netError, true⟩]).2.2.requests = 2 ∧
    distinct_codes
        [⟨false, IdMoneyField.number (some 145), 100, BankResponse.netError, true⟩] = ["USD"] ∧
    distinct_codes
        [⟨false, IdMoneyField.number (some 145), 100, BankResponse.netError, true⟩,
         ⟨false, IdMoneyField.number (some 145), 101, BankResponse.netError, true⟩] = ["USD"] := by
  refine ⟨?_, ?_, ?_, ?_⟩ <;>
    norm_num +decide [process_database, process_pages, process_page, initStats,
      extract_currency_code, py_int, CURRENCY_CODE_MAPPING, dict_get,
      get_exchange_rate, get_belarusbank_rate, should_refresh_cache,
      refresh_belarusbank_cache, py_upper, fixed_rates, distinct_codes,
      List.dedup]

/-- C2 as amended: if the cache is fresh at the start of the run (its
timestamp records a successful refresh) and every page of the run is
processed within the TTL window of that timestamp, then the run issues 0
provider queries, for every page list — so in this case the count is
independent of N.  (When the cache is not fresh and refreshes keep
failing, the count grows with the number of resolvable records, as the
counterexample shows.) -/
theorem batching_C2_amended (st : CacheState) (t0 : ℚ) (pages : List PageEnv)
    (hts : st.cache_timestamp = some t0) (ht0 : 0 < t0)
    (hw : ∀ p ∈ pages, p.time - t0 ≤ 3600) :
    (process_database st pages).2.2.requests = 0 := by
  unfold process_database
  by_cases he : pages.isEmpty
  · simp [he, initStats]
  · simp only [he, Bool.false_eq_true, if_false]
    exact (process_pages_fresh t0 ht0 pages st initStats hts hw).2

theorem batching_C2_amended_witness :
    (process_database ⟨[("USD", 3)], some 1000⟩
        [⟨false, IdMoneyField.number (some 145), 2000, BankResponse.netError, true⟩,
         ⟨false, IdMoneyField.number (some 292), 2100, BankResponse.netError, true⟩]).2.2.requests = 0 :=
  batching_C2_amended ⟨[("USD", 3)], some 1000⟩ 1000
    [⟨false, IdMoneyField.number (some 145), 2000, BankResponse.netError, true⟩,
     ⟨false, IdMoneyField.number (some 292), 2100, BankResponse.netError, true⟩]
    rfl (by norm_num)
    (by
      intro p hp
      simp only [List.mem_cons, List.mem_singleton] at hp
      rcases hp with h | h | h
      · rw [h]; norm_num
      · rw [h]; norm_num
      · cases h)

/-- C3 counterexample: over 2 records that both resolve to USD (1
distinct code), the batch loop invokes `get_exchange_rate` twice — once
per record, not once per distinct code: no deduplication happens. -/
theorem dedup_C3_counterexample :
    (process_database ⟨[], none⟩
        [⟨false, IdMoneyField.number (some 145), 100, BankResponse.netError, true⟩,
         ⟨false, IdMoneyField.number (some 145), 101, BankResponse.netError, true⟩]).2.2.rate_lookups = 2 ∧
    (distinct_codes
        [⟨false, IdMoneyField.number (some 145), 100, BankResponse.netError, true⟩,
         ⟨false, IdMoneyField.number (some 145), 101, BankResponse.netError, true⟩]).length = 1 := by
  constructor <;>
    norm_num +decide [process_database, process_pages, process_page, initStats,
      extract_currency_code, py_int, CURRENCY_CODE_MAPPING, dict_get,
      get_exchange_rate, get_belarusbank_rate, should_refresh_cache,
      refresh_belarusbank_cache, py_upper, fixed_rates, distinct_codes,
      List.dedup]

/-- C3 as amended: the orchestrator performs no deduplication: it
invokes `get_exchange_rate` exactly once per record whose id is present
and whose currency code is extractable — i.e. once per resolvable
record, for every input collection.  (Repeated provider traffic is
avoided by the TTL cache inside the chain, not by deduplication.) -/
theorem dedup_C3_amended (st : CacheState) (pages : List PageEnv) :
    (process_database st pages).2.2.rate_lookups =
      (pages.filter
        (fun p => !p.missing_id && (extract_currency_code p.field).isSome)).length := by
  unfold process_database
  by_cases he : pages.isEmpty
  · rw [List.isEmpty_iff] at he
    simp [he, initStats]
  · simp only [he, Bool.false_eq_true, if_false]
    rw [process_pages_rate_lookups pages st initStats]
    simp [initStats]

/-- C9 counterexample: the value `process_database` returns is only the
updated count (`None` when there are no pages): two runs with different
skipped/error counts return the very same value, so the return value
does not carry all four claimed counts (and no unique-currency count is
computed at all). -/
theorem aggregate_C9_counterexample :
    (process_database ⟨[], none⟩
        [⟨false, IdMoneyField.absent, 100, BankResponse.netError, true⟩]).1 =
      (process_database ⟨[], none⟩
        [⟨true, IdMoneyField.absent, 100, BankResponse.netError, true⟩]).1 ∧
    (process_database ⟨[], none⟩
        [⟨false, IdMoneyField.absent, 100, BankResponse.netError, true⟩]).2.2.skipped = 1 ∧
    (process_database ⟨[], none⟩
        [⟨true, IdMoneyField.absent, 100, BankResponse.netError, true⟩]).2.2.skipped = 0 ∧
    (process_database ⟨[], none⟩
        [⟨false, IdMoneyField.absent, 100, BankResponse.netError, true⟩]).2.2.errors = 0 ∧
    (process_database ⟨[], none⟩
        [⟨true, IdMoneyField.absent, 100, BankResponse.netError, true⟩]).2.2.errors = 1 := by
  refine ⟨?_, ?_, ?_, ?_, ?_⟩ <;>
    norm_num +decide [process_database, process_pages, process_page, initStats,
      extract_currency_code, dict_get, py_upper]

/-- C9 as amended: a batch run computes (and logs) the three counters
updated/skipped/errors — every page accounts for exactly one of them, so
no per-record failure escapes the loop — but the function's return value
is only the updated count (`None` when the page list is empty), and no
unique-currency count exists. -/
theorem aggregate_C9_amended (st : CacheState) (pages : List PageEnv) :
    (process_database st pages).2.2.updated + (process_database st pages).2.2.skipped +
      (process_database st pages).2.2.errors = pages.length ∧
    (pages ≠ [] →
      (process_database st pages).1 = some (process_database st pages).2.2.updated) := by
  unfold process_database
  by_cases he : pages.isEmpty
  · rw [List.isEmpty_iff] at he
    simp [he, initStats]
  · simp only [he, Bool.false_eq_true, if_false]
    refine ⟨?_, fun _ => by trivial⟩
    rw [process_pages_total pages st initStats]
    simp [initStats]

theorem aggregate_C9_amended_witness :
    (process_database ⟨[], none⟩
        [⟨false, IdMoneyField.absent, 100, BankResponse.netError, true⟩,
         ⟨true, IdMoneyField.absent, 100, BankResponse.netError, true⟩]).2.2.updated +
      (process_database ⟨[], none⟩
        [⟨false, IdMoneyField.absent, 100, BankResponse.netError, true⟩,
         ⟨true, IdMoneyField.absent, 100, BankResponse.netError, true⟩]).2.2.skipped +
      (process_database ⟨[], none⟩
        [⟨false, IdMoneyField.absent, 100, BankResponse.netError, true⟩,
         ⟨true, IdMoneyField.absent, 100, BankResponse.netError, true⟩]).2.2.errors = 2 ∧
    (process_database ⟨[], none⟩
        [⟨false, IdMoneyField.absent, 100, BankResponse.netError, true⟩,
         ⟨true, IdMoneyField.absent, 100, BankResponse.netError, true⟩]).1 =
      some (process_database ⟨[], none⟩
        [⟨false, IdMoneyField.absent, 100, BankResponse.netError, true⟩,
         ⟨true, IdMoneyField.absent, 100, BankResponse.netError, true⟩]).2.2.updated := by
  have h := aggregate_C9_amended ⟨[], none⟩
    [⟨false, IdMoneyField.absent, 100, BankResponse.netError, true⟩,
     ⟨true, IdMoneyField.absent, 100, BankResponse.netError, true⟩]
  exact ⟨h.1, h.2 (by simp)⟩
